import Mathlib

/-!
Verification of the CUDPP plan/handle management layer
(src/cudpp/src/cudpp_plan.cpp) as a shallow embedding in Lean.

Pure C++ functions become Lean functions; the handle-indexed plan
registry (declared in headers that are not part of the sources,
namely cudpp_manager.h and cudpp_plan.h) is modelled from the spec as
an explicit manager state threaded through the entry points.
Destructor bodies are modelled as the list of release actions they
perform, in order.
-/

/-- Algorithm tags, mirroring the CUDPPAlgorithm enum used by
cudpp_plan.cpp (CUDPP_SCAN, CUDPP_SEGMENTED_SCAN, CUDPP_COMPACT,
CUDPP_SORT_RADIX, CUDPP_REDUCE, CUDPP_SPMVMULT, CUDPP_RAND_MD5). -/
inductive CUDPPAlgorithm where
  | CUDPP_SCAN
  | CUDPP_SEGMENTED_SCAN
  | CUDPP_COMPACT
  | CUDPP_SORT_RADIX
  | CUDPP_REDUCE
  | CUDPP_SPMVMULT
  | CUDPP_RAND_MD5
deriving DecidableEq, Repr

/-- Modelled from the spec: the operator enum of the configuration
descriptor (cudpp.h is not under src/); cudpp_plan.cpp uses CUDPP_ADD. -/
inductive CUDPPOperator where
  | CUDPP_ADD
  | CUDPP_MULTIPLY
  | CUDPP_MIN
  | CUDPP_MAX
deriving DecidableEq, Repr

/-- Modelled from the spec: the datatype enum of the configuration
descriptor (cudpp.h is not under src/); cudpp_plan.cpp uses CUDPP_UINT. -/
inductive CUDPPDatatype where
  | CUDPP_INT
  | CUDPP_UINT
  | CUDPP_FLOAT
  | CUDPP_DOUBLE
deriving DecidableEq, Repr

/-- Modelled from the spec: option bit for forward scans (cudpp.h is
not under src/; the options field is a bitmask over distinct bits). -/
def CUDPP_OPTION_FORWARD : Nat := 1

/-- Modelled from the spec: option bit for backward scans. -/
def CUDPP_OPTION_BACKWARD : Nat := 2

/-- Modelled from the spec: option bit for exclusive scans. -/
def CUDPP_OPTION_EXCLUSIVE : Nat := 4

/-- Modelled from the spec: option bit for inclusive scans. -/
def CUDPP_OPTION_INCLUSIVE : Nat := 8

/-- Modelled from the spec: option bit for CTA-local operation. -/
def CUDPP_OPTION_CTA_LOCAL : Nat := 16

/-- Modelled from the spec: the keys-only sentinel option value that
CUDPPRadixSortPlan compares the whole options field against. -/
def CUDPP_OPTION_KEYS_ONLY : Nat := 32

/-- The configuration descriptor passed to cudppPlan: algorithm,
operator, datatype and an options bitmask. -/
structure CUDPPConfiguration where
  algorithm : CUDPPAlgorithm
  op : CUDPPOperator
  datatype : CUDPPDatatype
  options : Nat
deriving DecidableEq, Repr

/-- Result codes returned by the plan interface. -/
inductive CUDPPResult where
  | CUDPP_SUCCESS
  | CUDPP_ERROR_INVALID_HANDLE
  | CUDPP_ERROR_ILLEGAL_CONFIGURATION
  | CUDPP_ERROR_UNKNOWN
deriving DecidableEq, Repr

/-- Modelled from the spec: the invalid handle sentinel (cudpp.h is not
under src/). Handles issued by the manager are all distinct from it. -/
def CUDPP_INVALID_HANDLE : Nat := 0

/-- validateOptions from cudpp_plan.cpp lines 22-34: ret starts at
CUDPP_SUCCESS and is overwritten with CUDPP_ERROR_ILLEGAL_CONFIGURATION
by each of the three checks whose condition holds; numElements and
rowPitch are unused by the source. -/
def validateOptions (config : CUDPPConfiguration) (_numElements : Nat)
    (numRows : Nat) (_rowPitch : Nat) : CUDPPResult :=
  let ret := CUDPPResult.CUDPP_SUCCESS
  let ret := if config.options &&& CUDPP_OPTION_BACKWARD ≠ 0 ∧
                config.options &&& CUDPP_OPTION_FORWARD ≠ 0 then
    CUDPPResult.CUDPP_ERROR_ILLEGAL_CONFIGURATION else ret
  let ret := if config.options &&& CUDPP_OPTION_EXCLUSIVE ≠ 0 ∧
                config.options &&& CUDPP_OPTION_INCLUSIVE ≠ 0 then
    CUDPPResult.CUDPP_ERROR_ILLEGAL_CONFIGURATION else ret
  let ret := if config.algorithm = CUDPPAlgorithm.CUDPP_COMPACT ∧ numRows > 1 then
    CUDPPResult.CUDPP_ERROR_ILLEGAL_CONFIGURATION else ret
  ret

/-- The CUDPPPlan base-class state (cudpp_plan.cpp lines 286-297):
configuration and the three size arguments, stored verbatim. -/
structure PlanBase where
  m_config : CUDPPConfiguration
  m_numElements : Nat
  m_numRows : Nat
  m_rowPitch : Nat
deriving DecidableEq, Repr

/-- CUDPPScanPlan: only base-class state matters to this layer; the
block-sum buffers are allocated by allocScanStorage (external). -/
structure CUDPPScanPlan where
  base : PlanBase
deriving DecidableEq, Repr

/-- CUDPPSegmentedScanPlan: only base-class state matters here. -/
structure CUDPPSegmentedScanPlan where
  base : PlanBase
deriving DecidableEq, Repr

/-- CUDPPCompactPlan: owns one nested scan plan (m_scanPlan). -/
structure CUDPPCompactPlan where
  base : PlanBase
  m_scanPlan : CUDPPScanPlan
deriving DecidableEq, Repr

/-- CUDPPRadixSortPlan: owns one nested scan plan and records the
keys-only flag m_bKeysOnly. -/
structure CUDPPRadixSortPlan where
  base : PlanBase
  m_scanPlan : CUDPPScanPlan
  m_bKeysOnly : Bool
deriving DecidableEq, Repr

/-- CUDPPReducePlan: fixed threads-per-block and max-blocks constants. -/
structure CUDPPReducePlan where
  base : PlanBase
  m_threadsPerBlock : Nat
  m_maxBlocks : Nat
deriving DecidableEq, Repr

/-- CUDPPSparseMatrixVectorMultiplyPlan: owns one nested segmented-scan
plan, the row-final-index table, and its own row/nonzero counts. -/
structure CUDPPSparseMatrixVectorMultiplyPlan where
  base : PlanBase
  m_segmentedScanPlan : CUDPPSegmentedScanPlan
  m_rowFinalIndex : List Nat
  m_numRows : Nat
  m_numNonZeroElements : Nat
deriving DecidableEq, Repr

/-- CUDPPRandPlan: holds a seed, initialized to 0. -/
structure CUDPPRandPlan where
  base : PlanBase
  m_seed : Nat
deriving DecidableEq, Repr

/-- A concrete plan of any of the seven kinds. -/
inductive Plan where
  | scan : CUDPPScanPlan → Plan
  | segmentedScan : CUDPPSegmentedScanPlan → Plan
  | compact : CUDPPCompactPlan → Plan
  | radixSort : CUDPPRadixSortPlan → Plan
  | reduce : CUDPPReducePlan → Plan
  | sparseMatrixVectorMultiply : CUDPPSparseMatrixVectorMultiplyPlan → Plan
  | rand : CUDPPRandPlan → Plan
deriving DecidableEq, Repr

/-- Base-class state of a plan of any kind. -/
def Plan.base : Plan → PlanBase
  | .scan p => p.base
  | .segmentedScan p => p.base
  | .compact p => p.base
  | .radixSort p => p.base
  | .reduce p => p.base
  | .sparseMatrixVectorMultiply p => p.base
  | .rand p => p.base

/-- The algorithm tag recorded in the plan itself (m_config.algorithm),
which cudppDestroyPlan switches on. -/
def Plan.tag (p : Plan) : CUDPPAlgorithm := p.base.m_config.algorithm

/-- CUDPPScanPlan constructor (cudpp_plan.cpp lines 307-320): stores
config and the three sizes; allocScanStorage is external. -/
def mkScanPlan (config : CUDPPConfiguration) (numElements numRows rowPitch : Nat) :
    CUDPPScanPlan :=
  ⟨⟨config, numElements, numRows, rowPitch⟩⟩

/-- CUDPPSegmentedScanPlan constructor (lines 334-345): passes
(numElements, 1, 0) to the base class. -/
def mkSegmentedScanPlan (config : CUDPPConfiguration) (numElements : Nat) :
    CUDPPSegmentedScanPlan :=
  ⟨⟨config, numElements, 1, 0⟩⟩

/-- CUDPPCompactPlan constructor (lines 361-383): stores the caller's
sizes and builds one nested scan plan with configuration
{CUDPP_SCAN, CUDPP_ADD, CUDPP_UINT, BACKWARD|EXCLUSIVE if the caller's
options contain BACKWARD, else FORWARD|EXCLUSIVE}, sized with the
caller's (numElements, numRows, rowPitch). -/
def mkCompactPlan (config : CUDPPConfiguration) (numElements numRows rowPitch : Nat) :
    CUDPPCompactPlan :=
  let scanConfig : CUDPPConfiguration :=
    ⟨CUDPPAlgorithm.CUDPP_SCAN, CUDPPOperator.CUDPP_ADD, CUDPPDatatype.CUDPP_UINT,
      if config.options &&& CUDPP_OPTION_BACKWARD ≠ 0 then
        CUDPP_OPTION_BACKWARD ||| CUDPP_OPTION_EXCLUSIVE
      else
        CUDPP_OPTION_FORWARD ||| CUDPP_OPTION_EXCLUSIVE⟩
  ⟨⟨config, numElements, numRows, rowPitch⟩,
    mkScanPlan scanConfig numElements numRows rowPitch⟩

/-- Modelled from the spec: REDUCE_CTA_SIZE is defined in a header not
under src/; its value does not affect any claim. -/
def REDUCE_CTA_SIZE : Nat := 256

/-- CUDPPReducePlan constructor (lines 398-408): passes
(numElements, 1, 0) to the base class, threads-per-block is
REDUCE_CTA_SIZE and max blocks is 64. -/
def mkReducePlan (config : CUDPPConfiguration) (numElements : Nat) :
    CUDPPReducePlan :=
  ⟨⟨config, numElements, 1, 0⟩, REDUCE_CTA_SIZE, 64⟩

/-- Modelled from the spec: SORT_CTA_SIZE is defined in
cudpp_radixsort.h, which is not under src/; the spec fixes the radix
sort tile size at 512. -/
def SORT_CTA_SIZE : Nat := 512

/-- CUDPPRadixSortPlan constructor (lines 423-453): passes
(numElements, 1, 0) to the base class, computes numBlocks2 with the
modulus test of lines 434-435, sets m_bKeysOnly by comparing the whole
options field against CUDPP_OPTION_KEYS_ONLY (line 445), and builds one
nested scan plan sized (numBlocks2*16, 1, 0) with configuration
{CUDPP_SCAN, CUDPP_ADD, CUDPP_UINT, FORWARD|EXCLUSIVE}. -/
def mkRadixSortPlan (config : CUDPPConfiguration) (numElements : Nat) :
    CUDPPRadixSortPlan :=
  let numBlocks2 : Nat :=
    if numElements % (SORT_CTA_SIZE * 2) = 0 then
      numElements / (SORT_CTA_SIZE * 2)
    else
      numElements / (SORT_CTA_SIZE * 2) + 1
  let scanConfig : CUDPPConfiguration :=
    ⟨CUDPPAlgorithm.CUDPP_SCAN, CUDPPOperator.CUDPP_ADD, CUDPPDatatype.CUDPP_UINT,
      CUDPP_OPTION_FORWARD ||| CUDPP_OPTION_EXCLUSIVE⟩
  let bKeysOnly : Bool := config.options = CUDPP_OPTION_KEYS_ONLY
  ⟨⟨config, numElements, 1, 0⟩, mkScanPlan scanConfig (numBlocks2 * 16) 1 0, bKeysOnly⟩

/-- CUDPPSparseMatrixVectorMultiplyPlan constructor (lines 473-511):
passes (numNonZeroElements, 1, 0) to the base class, builds one nested
segmented-scan plan with configuration {CUDPP_SEGMENTED_SCAN, CUDPP_ADD,
caller's datatype, FORWARD|INCLUSIVE} sized numNonZeroElements, and
fills m_rowFinalIndex of length numRows with rowIndex[i+1] for
i < numRows-1 and numNonZeroElements for the last entry. The C code
reads rowIndex through a raw pointer; the model reads the list with a
default that is never used when rowIndex has at least numRows entries. -/
def mkSparseMatrixVectorMultiplyPlan (config : CUDPPConfiguration)
    (numNonZeroElements : Nat) (rowIndex : List Nat) (numRows : Nat) :
    CUDPPSparseMatrixVectorMultiplyPlan :=
  let segScanConfig : CUDPPConfiguration :=
    ⟨CUDPPAlgorithm.CUDPP_SEGMENTED_SCAN, CUDPPOperator.CUDPP_ADD, config.datatype,
      CUDPP_OPTION_FORWARD ||| CUDPP_OPTION_INCLUSIVE⟩
  let m_segmentedScanPlan := mkSegmentedScanPlan segScanConfig numNonZeroElements
  let m_rowFinalIndex :=
    (List.range numRows).map fun i =>
      if i < numRows - 1 then rowIndex.getD (i + 1) 0 else numNonZeroElements
  ⟨⟨config, numNonZeroElements, 1, 0⟩, m_segmentedScanPlan, m_rowFinalIndex,
    numRows, numNonZeroElements⟩

/-- CUDPPRandPlan constructor (lines 527-532): passes
(num_elements, 1, 0) to the base class and m_seed starts at 0. -/
def mkRandPlan (config : CUDPPConfiguration) (num_elements : Nat) : CUDPPRandPlan :=
  ⟨⟨config, num_elements, 1, 0⟩, 0⟩

/-- Modelled from the spec: the per-instance handle table
(CUDPPManager/getPlanPtrFromHandle are declared in headers not under
src/). The table maps handles to live plans; handle assignment is
monotonic starting above the invalid sentinel and never reused. -/
structure CUDPPManager where
  table : List (Nat × Plan)
  nextHandle : Nat
deriving DecidableEq, Repr

/-- Modelled from the spec: a fresh manager with an empty table. -/
def CUDPPManager.init : CUDPPManager := ⟨[], 1⟩

/-- Modelled from the spec: register a plan, drawing the next handle. -/
def CUDPPManager.addPlan (mgr : CUDPPManager) (p : Plan) : CUDPPManager × Nat :=
  (⟨(mgr.nextHandle, p) :: mgr.table, mgr.nextHandle + 1⟩, mgr.nextHandle)

/-- Modelled from the spec: resolve a handle to its registered plan. -/
def CUDPPManager.getPlan (mgr : CUDPPManager) (h : Nat) : Option Plan :=
  (mgr.table.find? fun e => e.1 == h).map fun e => e.2

/-- Modelled from the spec: remove a handle registration. -/
def CUDPPManager.removePlan (mgr : CUDPPManager) (h : Nat) : CUDPPManager :=
  ⟨mgr.table.filter fun e => e.1 != h, mgr.nextHandle⟩

/-- Outcome of a plan-creating entry point: the updated manager state,
the value left in the output handle location, and the result code. -/
structure PlanOutcome where
  mgr : CUDPPManager
  planHandle : Nat
  result : CUDPPResult
deriving DecidableEq, Repr

/-- cudppPlan (cudpp_plan.cpp lines 68-133). planHandle0 is the value
held by the output location before the call: the validation failure
path overwrites it with the invalid sentinel, the default switch case
returns without writing it. The null-plan fallback of line 126 cannot
fire in the model, matching spec section 4.3 step 4 (should not occur).
Plan registration stands in for the handle assignment performed at
construction (spec sections 4.2 and 4.3); nested plans are reached
through their owner and are not separately registered here, as no claim
depends on nested handle registration. -/
def cudppPlan (mgr : CUDPPManager) (planHandle0 : Nat)
    (config : CUDPPConfiguration) (numElements numRows rowPitch : Nat) :
    PlanOutcome :=
  let result := validateOptions config numElements numRows rowPitch
  if result ≠ CUDPPResult.CUDPP_SUCCESS then
    ⟨mgr, CUDPP_INVALID_HANDLE, result⟩
  else
    match config.algorithm with
    | CUDPPAlgorithm.CUDPP_SCAN =>
      let r := mgr.addPlan (Plan.scan (mkScanPlan config numElements numRows rowPitch))
      ⟨r.1, r.2, CUDPPResult.CUDPP_SUCCESS⟩
    | CUDPPAlgorithm.CUDPP_COMPACT =>
      let r := mgr.addPlan (Plan.compact (mkCompactPlan config numElements numRows rowPitch))
      ⟨r.1, r.2, CUDPPResult.CUDPP_SUCCESS⟩
    | CUDPPAlgorithm.CUDPP_SORT_RADIX =>
      let r := mgr.addPlan (Plan.radixSort (mkRadixSortPlan config numElements))
      ⟨r.1, r.2, CUDPPResult.CUDPP_SUCCESS⟩
    | CUDPPAlgorithm.CUDPP_SEGMENTED_SCAN =>
      let r := mgr.addPlan (Plan.segmentedScan (mkSegmentedScanPlan config numElements))
      ⟨r.1, r.2, CUDPPResult.CUDPP_SUCCESS⟩
    | CUDPPAlgorithm.CUDPP_RAND_MD5 =>
      let r := mgr.addPlan (Plan.rand (mkRandPlan config numElements))
      ⟨r.1, r.2, CUDPPResult.CUDPP_SUCCESS⟩
    | CUDPPAlgorithm.CUDPP_REDUCE =>
      let r := mgr.addPlan (Plan.reduce (mkReducePlan config numElements))
      ⟨r.1, r.2, CUDPPResult.CUDPP_SUCCESS⟩
    | CUDPPAlgorithm.CUDPP_SPMVMULT =>
      ⟨mgr, planHandle0, CUDPPResult.CUDPP_ERROR_ILLEGAL_CONFIGURATION⟩

/-- One release action performed during destruction: a storage-freeing
collaborator call, the delete of the row-final-index table, or the
removal of a handle registration. -/
inductive DestroyEvent where
  | freeScanStorage
  | freeSegmentedScanStorage
  | freeCompactStorage
  | freeReduceStorage
  | freeRadixSortStorage
  | freeSparseMatrixVectorMultiplyStorage
  | freeRowFinalIndex
  | removeHandle : Nat → DestroyEvent
deriving DecidableEq, Repr

/-- CUDPPScanPlan destructor body (line 323-326): freeScanStorage. -/
def scanDestructor : List DestroyEvent := [DestroyEvent.freeScanStorage]

/-- CUDPPSegmentedScanPlan destructor body (lines 348-351). -/
def segmentedScanDestructor : List DestroyEvent :=
  [DestroyEvent.freeSegmentedScanStorage]

/-- CUDPPCompactPlan destructor body (lines 386-390): delete m_scanPlan
first (running the scan destructor), then freeCompactStorage. -/
def compactDestructor : List DestroyEvent :=
  scanDestructor ++ [DestroyEvent.freeCompactStorage]

/-- CUDPPReducePlan destructor body (lines 411-414). -/
def reduceDestructor : List DestroyEvent := [DestroyEvent.freeReduceStorage]

/-- CUDPPRadixSortPlan destructor body (lines 456-460): delete
m_scanPlan first (running the scan destructor), then
freeRadixSortStorage. -/
def radixSortDestructor : List DestroyEvent :=
  scanDestructor ++ [DestroyEvent.freeRadixSortStorage]

/-- CUDPPSparseMatrixVectorMultiplyPlan destructor body (lines 514-519):
freeSparseMatrixVectorMultiplyStorage first, then delete
m_segmentedScanPlan (running the segmented-scan destructor), then
delete the m_rowFinalIndex array. -/
def sparseMatrixVectorMultiplyDestructor : List DestroyEvent :=
  [DestroyEvent.freeSparseMatrixVectorMultiplyStorage] ++
    segmentedScanDestructor ++ [DestroyEvent.freeRowFinalIndex]

/-- CUDPPRandPlan has no declared destructor: no release actions. -/
def randDestructor : List DestroyEvent := []

/-- The destructor the tag-directed static_cast of cudppDestroyPlan
selects for each algorithm tag. -/
def destructorForTag : CUDPPAlgorithm → List DestroyEvent
  | CUDPPAlgorithm.CUDPP_SCAN => scanDestructor
  | CUDPPAlgorithm.CUDPP_SEGMENTED_SCAN => segmentedScanDestructor
  | CUDPPAlgorithm.CUDPP_COMPACT => compactDestructor
  | CUDPPAlgorithm.CUDPP_SORT_RADIX => radixSortDestructor
  | CUDPPAlgorithm.CUDPP_REDUCE => reduceDestructor
  | CUDPPAlgorithm.CUDPP_SPMVMULT => sparseMatrixVectorMultiplyDestructor
  | CUDPPAlgorithm.CUDPP_RAND_MD5 => randDestructor

/-- Outcome of a destroy entry point: updated manager state, result
code, and the ordered release actions performed. -/
structure DestroyOutcome where
  mgr : CUDPPManager
  result : CUDPPResult
  events : List DestroyEvent
deriving DecidableEq, Repr

/-- cudppDestroyPlan (cudpp_plan.cpp lines 143-190): reject the invalid
sentinel; resolve the handle (spec-modelled table; an unregistered
handle fails with CUDPP_ERROR_INVALID_HANDLE per spec section 4.2);
switch on the algorithm tag recorded in the plan (m_config.algorithm):
the six handled cases cast to that tag's class and delete it, running
that destructor, after which the handle registration is removed; the
default case (which a CUDPP_SPMVMULT tag reaches, there being no case
for it) returns CUDPP_ERROR_ILLEGAL_CONFIGURATION without any cleanup. -/
def cudppDestroyPlan (mgr : CUDPPManager) (planHandle : Nat) : DestroyOutcome :=
  if planHandle = CUDPP_INVALID_HANDLE then
    ⟨mgr, CUDPPResult.CUDPP_ERROR_INVALID_HANDLE, []⟩
  else
    match mgr.getPlan planHandle with
    | none => ⟨mgr, CUDPPResult.CUDPP_ERROR_INVALID_HANDLE, []⟩
    | some plan =>
      match plan.tag with
      | CUDPPAlgorithm.CUDPP_SCAN =>
        ⟨mgr.removePlan planHandle, CUDPPResult.CUDPP_SUCCESS,
          scanDestructor ++ [DestroyEvent.removeHandle planHandle]⟩
      | CUDPPAlgorithm.CUDPP_COMPACT =>
        ⟨mgr.removePlan planHandle, CUDPPResult.CUDPP_SUCCESS,
          compactDestructor ++ [DestroyEvent.removeHandle planHandle]⟩
      | CUDPPAlgorithm.CUDPP_SORT_RADIX =>
        ⟨mgr.removePlan planHandle, CUDPPResult.CUDPP_SUCCESS,
          radixSortDestructor ++ [DestroyEvent.removeHandle planHandle]⟩
      | CUDPPAlgorithm.CUDPP_SEGMENTED_SCAN =>
        ⟨mgr.removePlan planHandle, CUDPPResult.CUDPP_SUCCESS,
          segmentedScanDestructor ++ [DestroyEvent.removeHandle planHandle]⟩
      | CUDPPAlgorithm.CUDPP_RAND_MD5 =>
        ⟨mgr.removePlan planHandle, CUDPPResult.CUDPP_SUCCESS,
          randDestructor ++ [DestroyEvent.removeHandle planHandle]⟩
      | CUDPPAlgorithm.CUDPP_REDUCE =>
        ⟨mgr.removePlan planHandle, CUDPPResult.CUDPP_SUCCESS,
          reduceDestructor ++ [DestroyEvent.removeHandle planHandle]⟩
      | CUDPPAlgorithm.CUDPP_SPMVMULT =>
        ⟨mgr, CUDPPResult.CUDPP_ERROR_ILLEGAL_CONFIGURATION, []⟩

/-- cudppSparseMatrix (cudpp_plan.cpp lines 212-252): reject when the
algorithm is not CUDPP_SPMVMULT or either count is zero (size_t
arguments, so at-most-zero means equal to zero), writing the invalid
sentinel; otherwise construct and register the sparse matrix plan. The
matrix value array A is passed only to external storage allocation and
is omitted from the model. The output handle location is written on
every path, so its prior value is unused. -/
def cudppSparseMatrix (mgr : CUDPPManager) (_sparseMatrixHandle0 : Nat)
    (config : CUDPPConfiguration) (numNonZeroElements numRows : Nat)
    (h_rowIndices _h_indices : List Nat) : PlanOutcome :=
  let result :=
    if config.algorithm ≠ CUDPPAlgorithm.CUDPP_SPMVMULT ∨
        numNonZeroElements = 0 ∨ numRows = 0 then
      CUDPPResult.CUDPP_ERROR_ILLEGAL_CONFIGURATION
    else
      CUDPPResult.CUDPP_SUCCESS
  if result ≠ CUDPPResult.CUDPP_SUCCESS then
    ⟨mgr, CUDPP_INVALID_HANDLE, result⟩
  else
    let r := mgr.addPlan (Plan.sparseMatrixVectorMultiply
      (mkSparseMatrixVectorMultiplyPlan config numNonZeroElements h_rowIndices numRows))
    ⟨r.1, r.2, CUDPPResult.CUDPP_SUCCESS⟩

/-- cudppDestroySparseMatrix (cudpp_plan.cpp lines 262-272): reject the
invalid sentinel; resolve the handle (spec-modelled table); delete the
plan as a CUDPPSparseMatrixVectorMultiplyPlan, running its destructor,
then remove the registration. -/
def cudppDestroySparseMatrix (mgr : CUDPPManager) (sparseMatrixHandle : Nat) :
    DestroyOutcome :=
  if sparseMatrixHandle = CUDPP_INVALID_HANDLE then
    ⟨mgr, CUDPPResult.CUDPP_ERROR_INVALID_HANDLE, []⟩
  else
    match mgr.getPlan sparseMatrixHandle with
    | none => ⟨mgr, CUDPPResult.CUDPP_ERROR_INVALID_HANDLE, []⟩
    | some _ =>
      ⟨mgr.removePlan sparseMatrixHandle, CUDPPResult.CUDPP_SUCCESS,
        sparseMatrixVectorMultiplyDestructor ++
          [DestroyEvent.removeHandle sparseMatrixHandle]⟩

/-- A concrete creation outcome: a compact plan (options 0, 8 elements,
one row) registered in a fresh manager; its handle is 1. -/
def compactExampleOutcome : PlanOutcome :=
  cudppPlan CUDPPManager.init 0
    ⟨CUDPPAlgorithm.CUDPP_COMPACT, CUDPPOperator.CUDPP_ADD,
      CUDPPDatatype.CUDPP_UINT, 0⟩ 8 1 0

/-- A concrete creation outcome: a sparse matrix plan for numRows = 3,
rowIndices [0, 4, 9] and 12 nonzero elements registered in a fresh
manager; its handle is 1. -/
def spmvExampleOutcome : PlanOutcome :=
  cudppSparseMatrix CUDPPManager.init 0
    ⟨CUDPPAlgorithm.CUDPP_SPMVMULT, CUDPPOperator.CUDPP_ADD,
      CUDPPDatatype.CUDPP_FLOAT, 0⟩ 12 3 [0, 4, 9] [0, 1, 2]

theorem validateOptions_spec (config : CUDPPConfiguration)
    (numElements numRows rowPitch : Nat) :
    validateOptions config numElements numRows rowPitch =
      if (config.options &&& CUDPP_OPTION_BACKWARD ≠ 0 ∧
            config.options &&& CUDPP_OPTION_FORWARD ≠ 0) ∨
          (config.options &&& CUDPP_OPTION_EXCLUSIVE ≠ 0 ∧
            config.options &&& CUDPP_OPTION_INCLUSIVE ≠ 0) ∨
          (config.algorithm = CUDPPAlgorithm.CUDPP_COMPACT ∧ numRows > 1) then
        CUDPPResult.CUDPP_ERROR_ILLEGAL_CONFIGURATION
      else
        CUDPPResult.CUDPP_SUCCESS := by
  simp only [validateOptions]
  split_ifs <;> tauto

theorem getPlan_cons_self (h : Nat) (p : Plan) (t : List (Nat × Plan)) (nh : Nat) :
    CUDPPManager.getPlan ⟨(h, p) :: t, nh⟩ h = some p := by
  simp [CUDPPManager.getPlan, List.find?_cons_of_pos]

theorem getPlan_removePlan (mgr : CUDPPManager) (h : Nat) :
    (mgr.removePlan h).getPlan h = none := by
  have hfind : (mgr.table.filter fun e => e.1 != h).find? (fun e => e.1 == h) = none := by
    rw [List.find?_eq_none]
    intro x hx
    have hmem := List.of_mem_filter hx
    simp only [bne_iff_ne, ne_eq] at hmem
    simp [hmem]
  simp [CUDPPManager.getPlan, CUDPPManager.removePlan, hfind]

/-- Claim C1: for every configuration in which both Forward and
Backward are set, or both Exclusive and Inclusive are set, or the
algorithm is Compact and numRows > 1, cudppPlan returns
CUDPP_ERROR_ILLEGAL_CONFIGURATION, writes the invalid sentinel to the
output handle, and leaves the manager state untouched (validation
completes before any constructor runs, so nothing is allocated or
registered). -/
theorem cudppPlan_illegal_configuration (mgr : CUDPPManager) (planHandle0 : Nat)
    (config : CUDPPConfiguration) (numElements numRows rowPitch : Nat)
    (hbad : (config.options &&& CUDPP_OPTION_BACKWARD ≠ 0 ∧
        config.options &&& CUDPP_OPTION_FORWARD ≠ 0) ∨
      (config.options &&& CUDPP_OPTION_EXCLUSIVE ≠ 0 ∧
        config.options &&& CUDPP_OPTION_INCLUSIVE ≠ 0) ∨
      (config.algorithm = CUDPPAlgorithm.CUDPP_COMPACT ∧ numRows > 1)) :
    cudppPlan mgr planHandle0 config numElements numRows rowPitch =
      ⟨mgr, CUDPP_INVALID_HANDLE, CUDPPResult.CUDPP_ERROR_ILLEGAL_CONFIGURATION⟩ := by
  have hv : validateOptions config numElements numRows rowPitch =
      CUDPPResult.CUDPP_ERROR_ILLEGAL_CONFIGURATION := by
    rw [validateOptions_spec, if_pos hbad]
  simp [cudppPlan, hv]

/-- Witness for C1 at a concrete input: options 3 sets both Forward
and Backward, and cudppPlan on a fresh manager fails without touching
it. -/
theorem cudppPlan_illegal_configuration_witness :
    ((3 : Nat) &&& CUDPP_OPTION_BACKWARD ≠ 0 ∧
      (3 : Nat) &&& CUDPP_OPTION_FORWARD ≠ 0) ∧
    cudppPlan CUDPPManager.init 0
        ⟨CUDPPAlgorithm.CUDPP_SCAN, CUDPPOperator.CUDPP_ADD,
          CUDPPDatatype.CUDPP_UINT, 3⟩ 10 1 0 =
      ⟨CUDPPManager.init, CUDPP_INVALID_HANDLE,
        CUDPPResult.CUDPP_ERROR_ILLEGAL_CONFIGURATION⟩ :=
  ⟨by decide,
    cudppPlan_illegal_configuration CUDPPManager.init 0
      ⟨CUDPPAlgorithm.CUDPP_SCAN, CUDPPOperator.CUDPP_ADD,
        CUDPPDatatype.CUDPP_UINT, 3⟩ 10 1 0 (Or.inl (by decide))⟩

/-- Counterexample to claim C2 as stated: destroying a registered
Compact plan emits freeScanStorage (destruction of the nested scan
plan) before freeCompactStorage (release of the parent's own scratch
storage), not the other way around; the source destructor
(cudpp_plan.cpp lines 386-390) deletes m_scanPlan first. -/
theorem compact_destroy_order_counterexample :
    (cudppDestroyPlan compactExampleOutcome.mgr 1).events =
      [DestroyEvent.freeScanStorage, DestroyEvent.freeCompactStorage,
        DestroyEvent.removeHandle 1] ∧
    (cudppDestroyPlan compactExampleOutcome.mgr 1).events ≠
      [DestroyEvent.freeCompactStorage, DestroyEvent.freeScanStorage,
        DestroyEvent.removeHandle 1] := by
  decide

/-- Claim C2 (amended): Compact and RadixSort plans destroy the nested
scan plan first and release the parent's own scratch storage second;
the SparseMatrixVectorMultiply plan releases its own scratch storage
first, then destroys the nested segmented-scan plan, then frees the
row-final-index table (its destruction runs through the dedicated
sparse-matrix destroy entry point, since cudppDestroyPlan has no case
for its tag); in every case the parent's own handle registration is
removed last. -/
theorem destroy_release_order (mgr : CUDPPManager) (h : Nat) (plan : Plan)
    (hne : h ≠ CUDPP_INVALID_HANDLE) (hlook : mgr.getPlan h = some plan) :
    (plan.tag = CUDPPAlgorithm.CUDPP_COMPACT →
      (cudppDestroyPlan mgr h).events =
        scanDestructor ++ [DestroyEvent.freeCompactStorage] ++
          [DestroyEvent.removeHandle h]) ∧
    (plan.tag = CUDPPAlgorithm.CUDPP_SORT_RADIX →
      (cudppDestroyPlan mgr h).events =
        scanDestructor ++ [DestroyEvent.freeRadixSortStorage] ++
          [DestroyEvent.removeHandle h]) ∧
    (plan.tag = CUDPPAlgorithm.CUDPP_SPMVMULT →
      (cudppDestroySparseMatrix mgr h).events =
        [DestroyEvent.freeSparseMatrixVectorMultiplyStorage] ++
          segmentedScanDestructor ++ [DestroyEvent.freeRowFinalIndex] ++
          [DestroyEvent.removeHandle h]) := by
  refine ⟨?_, ?_, ?_⟩ <;> intro htag
  · simp [cudppDestroyPlan, hne, hlook, htag, compactDestructor, scanDestructor]
  · simp [cudppDestroyPlan, hne, hlook, htag, radixSortDestructor, scanDestructor]
  · simp [cudppDestroySparseMatrix, hne, hlook,
      sparseMatrixVectorMultiplyDestructor, segmentedScanDestructor]

/-- Witness for the amended C2 at a concrete input: the registered
compact plan of compactExampleOutcome, handle 1. -/
theorem destroy_release_order_witness :
    ((1 : Nat) ≠ CUDPP_INVALID_HANDLE) ∧
    (compactExampleOutcome.mgr.getPlan 1 =
      some (Plan.compact (mkCompactPlan
        ⟨CUDPPAlgorithm.CUDPP_COMPACT, CUDPPOperator.CUDPP_ADD,
          CUDPPDatatype.CUDPP_UINT, 0⟩ 8 1 0))) ∧
    ((Plan.compact (mkCompactPlan
        ⟨CUDPPAlgorithm.CUDPP_COMPACT, CUDPPOperator.CUDPP_ADD,
          CUDPPDatatype.CUDPP_UINT, 0⟩ 8 1 0)).tag =
          CUDPPAlgorithm.CUDPP_COMPACT →
      (cudppDestroyPlan compactExampleOutcome.mgr 1).events =
        scanDestructor ++ [DestroyEvent.freeCompactStorage] ++
          [DestroyEvent.removeHandle 1]) :=
  ⟨by decide, by decide,
    (destroy_release_order compactExampleOutcome.mgr 1
      (Plan.compact (mkCompactPlan
        ⟨CUDPPAlgorithm.CUDPP_COMPACT, CUDPPOperator.CUDPP_ADD,
          CUDPPDatatype.CUDPP_UINT, 0⟩ 8 1 0))
      (by decide) (by decide)).1⟩

/-- Claim C3: destroying the invalid sentinel or an unregistered
(never-created or already-destroyed) handle returns
CUDPP_ERROR_INVALID_HANDLE and leaves the manager untouched; in
particular, after cudppPlan and cudppDestroyPlan on a Scan request
(first destroy succeeding), a second cudppDestroyPlan on the same
handle returns CUDPP_ERROR_INVALID_HANDLE and changes nothing. -/
theorem cudppDestroyPlan_invalid_handle (mgr : CUDPPManager) (h : Nat) :
    (h = CUDPP_INVALID_HANDLE ∨ mgr.getPlan h = none →
      cudppDestroyPlan mgr h =
        ⟨mgr, CUDPPResult.CUDPP_ERROR_INVALID_HANDLE, []⟩) ∧
    (∀ (config : CUDPPConfiguration) (numElements numRows rowPitch planHandle0 : Nat),
      config.algorithm = CUDPPAlgorithm.CUDPP_SCAN →
      mgr.nextHandle ≠ CUDPP_INVALID_HANDLE →
      validateOptions config numElements numRows rowPitch = CUDPPResult.CUDPP_SUCCESS →
      (cudppDestroyPlan
          (cudppPlan mgr planHandle0 config numElements numRows rowPitch).mgr
          (cudppPlan mgr planHandle0 config numElements numRows rowPitch).planHandle).result =
        CUDPPResult.CUDPP_SUCCESS ∧
      cudppDestroyPlan
          (cudppDestroyPlan
            (cudppPlan mgr planHandle0 config numElements numRows rowPitch).mgr
            (cudppPlan mgr planHandle0 config numElements numRows rowPitch).planHandle).mgr
          (cudppPlan mgr planHandle0 config numElements numRows rowPitch).planHandle =
        ⟨(cudppDestroyPlan
            (cudppPlan mgr planHandle0 config numElements numRows rowPitch).mgr
            (cudppPlan mgr planHandle0 config numElements numRows rowPitch).planHandle).mgr,
          CUDPPResult.CUDPP_ERROR_INVALID_HANDLE, []⟩) := by
  constructor
  · rintro (h1 | h1)
    · simp [cudppDestroyPlan, h1]
    · by_cases h2 : h = CUDPP_INVALID_HANDLE
      · simp [cudppDestroyPlan, h2]
      · simp [cudppDestroyPlan, h2, h1]
  · intro config numElements numRows rowPitch planHandle0 halg hnx hv
    have hplan : cudppPlan mgr planHandle0 config numElements numRows rowPitch =
        ⟨⟨(mgr.nextHandle,
            Plan.scan (mkScanPlan config numElements numRows rowPitch)) :: mgr.table,
          mgr.nextHandle + 1⟩, mgr.nextHandle, CUDPPResult.CUDPP_SUCCESS⟩ := by
      simp [cudppPlan, hv, halg, CUDPPManager.addPlan]
    have hget : CUDPPManager.getPlan
        ⟨(mgr.nextHandle,
            Plan.scan (mkScanPlan config numElements numRows rowPitch)) :: mgr.table,
          mgr.nextHandle + 1⟩ mgr.nextHandle =
        some (Plan.scan (mkScanPlan config numElements numRows rowPitch)) :=
      getPlan_cons_self _ _ _ _
    have htag : (Plan.scan (mkScanPlan config numElements numRows rowPitch)).tag =
        CUDPPAlgorithm.CUDPP_SCAN := by
      simp [Plan.tag, Plan.base, mkScanPlan, halg]
    have hd1 : cudppDestroyPlan
        ⟨(mgr.nextHandle,
            Plan.scan (mkScanPlan config numElements numRows rowPitch)) :: mgr.table,
          mgr.nextHandle + 1⟩ mgr.nextHandle =
        ⟨CUDPPManager.removePlan
            ⟨(mgr.nextHandle,
                Plan.scan (mkScanPlan config numElements numRows rowPitch)) :: mgr.table,
              mgr.nextHandle + 1⟩ mgr.nextHandle,
          CUDPPResult.CUDPP_SUCCESS,
          scanDestructor ++ [DestroyEvent.removeHandle mgr.nextHandle]⟩ := by
      simp [cudppDestroyPlan, hnx, hget, htag]
    have hd2 : cudppDestroyPlan
        (CUDPPManager.removePlan
          ⟨(mgr.nextHandle,
              Plan.scan (mkScanPlan config numElements numRows rowPitch)) :: mgr.table,
            mgr.nextHandle + 1⟩ mgr.nextHandle) mgr.nextHandle =
        ⟨CUDPPManager.removePlan
            ⟨(mgr.nextHandle,
                Plan.scan (mkScanPlan config numElements numRows rowPitch)) :: mgr.table,
              mgr.nextHandle + 1⟩ mgr.nextHandle,
          CUDPPResult.CUDPP_ERROR_INVALID_HANDLE, []⟩ := by
      simp [cudppDestroyPlan, hnx, getPlan_removePlan]
    simp [hplan, hd1, hd2]

/-- Witness for C3 at concrete inputs: handle 5 is unregistered in a
fresh manager, and the create-destroy-destroy scenario on a Scan
request from a fresh manager. -/
theorem cudppDestroyPlan_invalid_handle_witness :
    (CUDPPManager.init.getPlan 5 = none) ∧
    cudppDestroyPlan CUDPPManager.init 5 =
      ⟨CUDPPManager.init, CUDPPResult.CUDPP_ERROR_INVALID_HANDLE, []⟩ ∧
    cudppDestroyPlan
        (cudppDestroyPlan
          (cudppPlan CUDPPManager.init 0
            ⟨CUDPPAlgorithm.CUDPP_SCAN, CUDPPOperator.CUDPP_ADD,
              CUDPPDatatype.CUDPP_UINT, 0⟩ 4 1 0).mgr
          (cudppPlan CUDPPManager.init 0
            ⟨CUDPPAlgorithm.CUDPP_SCAN, CUDPPOperator.CUDPP_ADD,
              CUDPPDatatype.CUDPP_UINT, 0⟩ 4 1 0).planHandle).mgr
        (cudppPlan CUDPPManager.init 0
          ⟨CUDPPAlgorithm.CUDPP_SCAN, CUDPPOperator.CUDPP_ADD,
            CUDPPDatatype.CUDPP_UINT, 0⟩ 4 1 0).planHandle =
      ⟨(cudppDestroyPlan
          (cudppPlan CUDPPManager.init 0
            ⟨CUDPPAlgorithm.CUDPP_SCAN, CUDPPOperator.CUDPP_ADD,
              CUDPPDatatype.CUDPP_UINT, 0⟩ 4 1 0).mgr
          (cudppPlan CUDPPManager.init 0
            ⟨CUDPPAlgorithm.CUDPP_SCAN, CUDPPOperator.CUDPP_ADD,
              CUDPPDatatype.CUDPP_UINT, 0⟩ 4 1 0).planHandle).mgr,
        CUDPPResult.CUDPP_ERROR_INVALID_HANDLE, []⟩ :=
  ⟨by decide,
    (cudppDestroyPlan_invalid_handle CUDPPManager.init 5).1 (Or.inr (by decide)),
    ((cudppDestroyPlan_invalid_handle CUDPPManager.init 5).2
      ⟨CUDPPAlgorithm.CUDPP_SCAN, CUDPPOperator.CUDPP_ADD,
        CUDPPDatatype.CUDPP_UINT, 0⟩ 4 1 0 0 rfl (by decide) (by decide)).2⟩

/-- Counterexample to claim C4 as stated: the claimed closed tag set
includes SparseMatrixVectorMultiply, but cudppDestroyPlan has no switch
case for CUDPP_SPMVMULT; on a registered sparse matrix plan it falls
through to the default case, returning
CUDPP_ERROR_ILLEGAL_CONFIGURATION, running no cleanup, and leaving the
handle registered. -/
theorem destroyPlan_spmv_counterexample :
    spmvExampleOutcome.result = CUDPPResult.CUDPP_SUCCESS ∧
    (spmvExampleOutcome.mgr.getPlan spmvExampleOutcome.planHandle).map Plan.tag =
      some CUDPPAlgorithm.CUDPP_SPMVMULT ∧
    cudppDestroyPlan spmvExampleOutcome.mgr spmvExampleOutcome.planHandle =
      ⟨spmvExampleOutcome.mgr, CUDPPResult.CUDPP_ERROR_ILLEGAL_CONFIGURATION, []⟩ := by
  decide

/-- Claim C4 (amended): for every registered plan whose recorded
algorithm tag is in the closed set {Scan, SegmentedScan, Compact,
RadixSort, Reduce, Rand}, cudppDestroyPlan dispatches on the tag stored
in the plan itself, runs exactly the release actions of that tag's
destructor once, then removes the handle registration (the destroyed
handle no longer resolves); a plan tagged SparseMatrixVectorMultiply is
not handled by this switch. -/
theorem destroyPlan_tag_dispatch (mgr : CUDPPManager) (h : Nat) (plan : Plan)
    (hne : h ≠ CUDPP_INVALID_HANDLE) (hlook : mgr.getPlan h = some plan)
    (htag : plan.tag ∈ [CUDPPAlgorithm.CUDPP_SCAN, CUDPPAlgorithm.CUDPP_SEGMENTED_SCAN,
      CUDPPAlgorithm.CUDPP_COMPACT, CUDPPAlgorithm.CUDPP_SORT_RADIX,
      CUDPPAlgorithm.CUDPP_REDUCE, CUDPPAlgorithm.CUDPP_RAND_MD5]) :
    cudppDestroyPlan mgr h =
      ⟨mgr.removePlan h, CUDPPResult.CUDPP_SUCCESS,
        destructorForTag plan.tag ++ [DestroyEvent.removeHandle h]⟩ ∧
    ((cudppDestroyPlan mgr h).mgr).getPlan h = none := by
  have hout : cudppDestroyPlan mgr h =
      ⟨mgr.removePlan h, CUDPPResult.CUDPP_SUCCESS,
        destructorForTag plan.tag ++ [DestroyEvent.removeHandle h]⟩ := by
    simp only [List.mem_cons, List.not_mem_nil, or_false] at htag
    rcases htag with h1 | h1 | h1 | h1 | h1 | h1 <;>
      simp [cudppDestroyPlan, hne, hlook, h1, destructorForTag]
  refine ⟨hout, ?_⟩
  rw [hout]
  exact getPlan_removePlan mgr h

/-- Witness for the amended C4 at a concrete input: the registered
compact plan of compactExampleOutcome, handle 1. -/
theorem destroyPlan_tag_dispatch_witness :
    ((1 : Nat) ≠ CUDPP_INVALID_HANDLE) ∧
    cudppDestroyPlan compactExampleOutcome.mgr 1 =
      ⟨compactExampleOutcome.mgr.removePlan 1, CUDPPResult.CUDPP_SUCCESS,
        destructorForTag (Plan.compact (mkCompactPlan
          ⟨CUDPPAlgorithm.CUDPP_COMPACT, CUDPPOperator.CUDPP_ADD,
            CUDPPDatatype.CUDPP_UINT, 0⟩ 8 1 0)).tag ++
          [DestroyEvent.removeHandle 1]⟩ ∧
    ((cudppDestroyPlan compactExampleOutcome.mgr 1).mgr).getPlan 1 = none :=
  ⟨by decide,
    (destroyPlan_tag_dispatch compactExampleOutcome.mgr 1
      (Plan.compact (mkCompactPlan
        ⟨CUDPPAlgorithm.CUDPP_COMPACT, CUDPPOperator.CUDPP_ADD,
          CUDPPDatatype.CUDPP_UINT, 0⟩ 8 1 0))
      (by decide) (by decide) (by decide)).1,
    (destroyPlan_tag_dispatch compactExampleOutcome.mgr 1
      (Plan.compact (mkCompactPlan
        ⟨CUDPPAlgorithm.CUDPP_COMPACT, CUDPPOperator.CUDPP_ADD,
          CUDPPDatatype.CUDPP_UINT, 0⟩ 8 1 0))
      (by decide) (by decide) (by decide)).2⟩

/-- Claim C5: for every numElements, the RadixSort plan constructor
computes numBlocks2 = ceil(numElements / (2 * SORT_CTA_SIZE)) (written
with the integer modulus-and-division test of cudpp_plan.cpp lines
434-435, equal to the usual (n + k - 1) / k ceiling over naturals) and
sizes its nested scan plan for exactly numBlocks2 * 16 elements with 1
row and 0 pitch; in particular, for numElements = 1000 and tile size
512, numBlocks2 = 1 and the nested scan plan is sized for 16 elements. -/
theorem radixSortPlan_scan_sizing :
    (∀ (config : CUDPPConfiguration) (numElements : Nat),
      (mkRadixSortPlan config numElements).m_scanPlan.base.m_numElements =
        ((numElements + (SORT_CTA_SIZE * 2 - 1)) / (SORT_CTA_SIZE * 2)) * 16 ∧
      (mkRadixSortPlan config numElements).m_scanPlan.base.m_numRows = 1 ∧
      (mkRadixSortPlan config numElements).m_scanPlan.base.m_rowPitch = 0) ∧
    (mkRadixSortPlan
      ⟨CUDPPAlgorithm.CUDPP_SORT_RADIX, CUDPPOperator.CUDPP_ADD,
        CUDPPDatatype.CUDPP_UINT, 0⟩ 1000).m_scanPlan.base.m_numElements = 16 := by
  constructor
  · intro config numElements
    refine ⟨?_, rfl, rfl⟩
    simp only [mkRadixSortPlan, mkScanPlan, SORT_CTA_SIZE]
    split_ifs with hmod <;> omega
  · decide

/-- Claim C6: for every Compact plan construction with numRows = 1, the
constructor builds exactly one internal scan plan (the single
m_scanPlan field) configured {CUDPP_SCAN, CUDPP_ADD, CUDPP_UINT} with
options BACKWARD|EXCLUSIVE when the caller's options include BACKWARD
and FORWARD|EXCLUSIVE otherwise, sized with the caller's
(numElements, numRows, rowPitch). -/
theorem compactPlan_nested_scan_config (config : CUDPPConfiguration)
    (numElements numRows rowPitch : Nat) (hrows : numRows = 1) :
    (mkCompactPlan config numElements numRows rowPitch).m_scanPlan.base.m_config.algorithm =
      CUDPPAlgorithm.CUDPP_SCAN ∧
    (mkCompactPlan config numElements numRows rowPitch).m_scanPlan.base.m_config.op =
      CUDPPOperator.CUDPP_ADD ∧
    (mkCompactPlan config numElements numRows rowPitch).m_scanPlan.base.m_config.datatype =
      CUDPPDatatype.CUDPP_UINT ∧
    (config.options &&& CUDPP_OPTION_BACKWARD ≠ 0 →
      (mkCompactPlan config numElements numRows rowPitch).m_scanPlan.base.m_config.options =
        CUDPP_OPTION_BACKWARD ||| CUDPP_OPTION_EXCLUSIVE) ∧
    (config.options &&& CUDPP_OPTION_BACKWARD = 0 →
      (mkCompactPlan config numElements numRows rowPitch).m_scanPlan.base.m_config.options =
        CUDPP_OPTION_FORWARD ||| CUDPP_OPTION_EXCLUSIVE) ∧
    (mkCompactPlan config numElements numRows rowPitch).m_scanPlan.base.m_numElements =
      numElements ∧
    (mkCompactPlan config numElements numRows rowPitch).m_scanPlan.base.m_numRows =
      numRows ∧
    (mkCompactPlan config numElements numRows rowPitch).m_scanPlan.base.m_rowPitch =
      rowPitch := by
  refine ⟨rfl, rfl, rfl, ?_, ?_, rfl, rfl, rfl⟩ <;> intro hb <;>
    simp [mkCompactPlan, mkScanPlan, hb]

/-- Witness for C6 at a concrete input: a compact request with options
0 (no BACKWARD bit) gets a FORWARD|EXCLUSIVE nested scan. -/
theorem compactPlan_nested_scan_config_witness :
    (1 : Nat) = 1 ∧
    (mkCompactPlan ⟨CUDPPAlgorithm.CUDPP_COMPACT, CUDPPOperator.CUDPP_ADD,
        CUDPPDatatype.CUDPP_UINT, 0⟩ 8 1 0).m_scanPlan.base.m_config.options =
      CUDPP_OPTION_FORWARD ||| CUDPP_OPTION_EXCLUSIVE :=
  ⟨rfl,
    (compactPlan_nested_scan_config
      ⟨CUDPPAlgorithm.CUDPP_COMPACT, CUDPPOperator.CUDPP_ADD,
        CUDPPDatatype.CUDPP_UINT, 0⟩ 8 1 0 rfl).2.2.2.2.1 (by decide)⟩

/-- Claim C7: for every SparseMatrixVectorMultiply plan constructed
with numRows > 0 from a row-index array with at least numRows entries,
the final-index table has exactly numRows entries, entry i equals
rowIndex[i+1] for every i < numRows - 1, and entry numRows - 1 equals
numNonZeroElements. -/
theorem spmv_rowFinalIndex_spec (config : CUDPPConfiguration)
    (numNonZeroElements : Nat) (rowIndex : List Nat) (numRows : Nat)
    (hpos : 0 < numRows) (hlen : numRows ≤ rowIndex.length) :
    (mkSparseMatrixVectorMultiplyPlan config numNonZeroElements rowIndex
        numRows).m_rowFinalIndex.length = numRows ∧
    (∀ i, i < numRows - 1 →
      (mkSparseMatrixVectorMultiplyPlan config numNonZeroElements rowIndex
          numRows).m_rowFinalIndex.getD i 0 = rowIndex.getD (i + 1) 0) ∧
    (mkSparseMatrixVectorMultiplyPlan config numNonZeroElements rowIndex
        numRows).m_rowFinalIndex.getD (numRows - 1) 0 = numNonZeroElements := by
  have hfi : (mkSparseMatrixVectorMultiplyPlan config numNonZeroElements rowIndex
      numRows).m_rowFinalIndex =
      (List.range numRows).map fun i =>
        if i < numRows - 1 then rowIndex.getD (i + 1) 0 else numNonZeroElements := rfl
  have key : ∀ i, i < numRows →
      ((List.range numRows).map fun j =>
        if j < numRows - 1 then rowIndex.getD (j + 1) 0 else numNonZeroElements).getD i 0 =
        if i < numRows - 1 then rowIndex.getD (i + 1) 0 else numNonZeroElements := by
    intro i hi
    rw [List.getD_eq_getElem?_getD, List.getElem?_map, List.getElem?_range hi]
    rfl
  refine ⟨by rw [hfi]; simp, ?_, ?_⟩
  · intro i hi
    rw [hfi, key i (lt_of_lt_of_le hi (Nat.sub_le _ _)), if_pos hi]
  · rw [hfi, key (numRows - 1) (Nat.sub_lt hpos one_pos),
      if_neg (lt_irrefl (numRows - 1))]

/-- Witness for C7 at the concrete input of the spec: numRows = 3,
rowIndex = [0, 4, 9], numNonZeroElements = 12 gives the final-index
table [4, 9, 12]. -/
theorem spmv_rowFinalIndex_spec_witness :
    (mkSparseMatrixVectorMultiplyPlan
      ⟨CUDPPAlgorithm.CUDPP_SPMVMULT, CUDPPOperator.CUDPP_ADD,
        CUDPPDatatype.CUDPP_FLOAT, 0⟩ 12 [0, 4, 9] 3).m_rowFinalIndex =
      [4, 9, 12] ∧
    (0 : Nat) < 3 ∧ (3 : Nat) ≤ ([0, 4, 9] : List Nat).length ∧
    (mkSparseMatrixVectorMultiplyPlan
      ⟨CUDPPAlgorithm.CUDPP_SPMVMULT, CUDPPOperator.CUDPP_ADD,
        CUDPPDatatype.CUDPP_FLOAT, 0⟩ 12 [0, 4, 9] 3).m_rowFinalIndex.getD 2 0 = 12 :=
  ⟨by decide, by decide, by decide,
    (spmv_rowFinalIndex_spec
      ⟨CUDPPAlgorithm.CUDPP_SPMVMULT, CUDPPOperator.CUDPP_ADD,
        CUDPPDatatype.CUDPP_FLOAT, 0⟩ 12 [0, 4, 9] 3
      (by decide) (by decide)).2.2⟩

theorem lor_ne_left_of_disjoint (a b : Nat) (hb : b ≠ 0) (hd : b &&& a = 0) :
    a ||| b ≠ a := by
  intro hor
  apply hb
  apply Nat.eq_of_testBit_eq
  intro i
  rw [Nat.zero_testBit]
  have h1 : (a ||| b).testBit i = a.testBit i := by rw [hor]
  have h2 : (b &&& a).testBit i = false := by rw [hd, Nat.zero_testBit]
  rw [Nat.testBit_or] at h1
  rw [Nat.testBit_and] at h2
  cases hA : a.testBit i <;> cases hB : b.testBit i <;> simp_all

/-- Claim C8: the RadixSort plan's keys-only flag is true exactly when
the caller's whole options field equals the single keys-only sentinel
value; any options value that combines the keys-only bit with any other
bit yields keys-only = false. -/
theorem radixSortPlan_keysOnly_flag (config : CUDPPConfiguration) (numElements : Nat) :
    ((mkRadixSortPlan config numElements).m_bKeysOnly = true ↔
      config.options = CUDPP_OPTION_KEYS_ONLY) ∧
    (∀ other : Nat, other ≠ 0 → other &&& CUDPP_OPTION_KEYS_ONLY = 0 →
      (mkRadixSortPlan ⟨config.algorithm, config.op, config.datatype,
          CUDPP_OPTION_KEYS_ONLY ||| other⟩ numElements).m_bKeysOnly = false) := by
  constructor
  · simp [mkRadixSortPlan]
  · intro other hother hdisj
    have hne := lor_ne_left_of_disjoint CUDPP_OPTION_KEYS_ONLY other hother hdisj
    simp [mkRadixSortPlan, hne]

/-- Witness for C8 at concrete inputs: options equal to the sentinel
give keys-only = true; sentinel combined with the Forward bit gives
keys-only = false. -/
theorem radixSortPlan_keysOnly_flag_witness :
    (mkRadixSortPlan ⟨CUDPPAlgorithm.CUDPP_SORT_RADIX, CUDPPOperator.CUDPP_ADD,
        CUDPPDatatype.CUDPP_UINT, CUDPP_OPTION_KEYS_ONLY⟩ 100).m_bKeysOnly = true ∧
    (1 : Nat) ≠ 0 ∧ (1 : Nat) &&& CUDPP_OPTION_KEYS_ONLY = 0 ∧
    (mkRadixSortPlan ⟨CUDPPAlgorithm.CUDPP_SORT_RADIX, CUDPPOperator.CUDPP_ADD,
        CUDPPDatatype.CUDPP_UINT, CUDPP_OPTION_KEYS_ONLY ||| 1⟩ 100).m_bKeysOnly =
      false :=
  ⟨(radixSortPlan_keysOnly_flag
      ⟨CUDPPAlgorithm.CUDPP_SORT_RADIX, CUDPPOperator.CUDPP_ADD,
        CUDPPDatatype.CUDPP_UINT, CUDPP_OPTION_KEYS_ONLY⟩ 100).1.mpr rfl,
    by decide, by decide,
    (radixSortPlan_keysOnly_flag
      ⟨CUDPPAlgorithm.CUDPP_SORT_RADIX, CUDPPOperator.CUDPP_ADD,
        CUDPPDatatype.CUDPP_UINT, CUDPP_OPTION_KEYS_ONLY⟩ 100).2 1
      (by decide) (by decide)⟩

/-- Claim C9: every cudppSparseMatrix call whose algorithm is not
SparseMatrixVectorMultiply, or whose numNonZeroElements or numRows is
zero, returns CUDPP_ERROR_ILLEGAL_CONFIGURATION, writes the invalid
sentinel to the output handle, and constructs no plan (the manager is
untouched). -/
theorem cudppSparseMatrix_illegal_configuration (mgr : CUDPPManager)
    (sparseMatrixHandle0 : Nat) (config : CUDPPConfiguration)
    (numNonZeroElements numRows : Nat) (h_rowIndices h_indices : List Nat)
    (hbad : config.algorithm ≠ CUDPPAlgorithm.CUDPP_SPMVMULT ∨
      numNonZeroElements = 0 ∨ numRows = 0) :
    cudppSparseMatrix mgr sparseMatrixHandle0 config numNonZeroElements numRows
        h_rowIndices h_indices =
      ⟨mgr, CUDPP_INVALID_HANDLE, CUDPPResult.CUDPP_ERROR_ILLEGAL_CONFIGURATION⟩ := by
  rcases hbad with h1 | h1 | h1 <;> simp [cudppSparseMatrix, h1]

/-- Witness for C9 at a concrete input: a Scan-tagged configuration is
rejected by cudppSparseMatrix on a fresh manager. -/
theorem cudppSparseMatrix_illegal_configuration_witness :
    (CUDPPConfiguration.algorithm
        ⟨CUDPPAlgorithm.CUDPP_SCAN, CUDPPOperator.CUDPP_ADD,
          CUDPPDatatype.CUDPP_FLOAT, 0⟩ ≠ CUDPPAlgorithm.CUDPP_SPMVMULT) ∧
    cudppSparseMatrix CUDPPManager.init 0
        ⟨CUDPPAlgorithm.CUDPP_SCAN, CUDPPOperator.CUDPP_ADD,
          CUDPPDatatype.CUDPP_FLOAT, 0⟩ 12 3 [0, 4, 9] [0, 1, 2] =
      ⟨CUDPPManager.init, CUDPP_INVALID_HANDLE,
        CUDPPResult.CUDPP_ERROR_ILLEGAL_CONFIGURATION⟩ :=
  ⟨by decide,
    cudppSparseMatrix_illegal_configuration CUDPPManager.init 0
      ⟨CUDPPAlgorithm.CUDPP_SCAN, CUDPPOperator.CUDPP_ADD,
        CUDPPDatatype.CUDPP_FLOAT, 0⟩ 12 3 [0, 4, 9] [0, 1, 2]
      (Or.inl (by decide))⟩

/-- Claim C10: for every cudppPlan call that passes validation, a
SegmentedScan, RadixSort, Reduce or Rand request registers a plan
recording numRows = 1 and rowPitch = 0 regardless of the caller's
numRows and rowPitch arguments, while Scan and Compact requests
register plans recording the caller's numRows and rowPitch. -/
theorem cudppPlan_rows_pitch_recording (mgr : CUDPPManager) (planHandle0 : Nat)
    (config : CUDPPConfiguration) (numElements numRows rowPitch : Nat)
    (hv : validateOptions config numElements numRows rowPitch =
      CUDPPResult.CUDPP_SUCCESS) :
    (config.algorithm ∈ [CUDPPAlgorithm.CUDPP_SEGMENTED_SCAN,
        CUDPPAlgorithm.CUDPP_SORT_RADIX, CUDPPAlgorithm.CUDPP_REDUCE,
        CUDPPAlgorithm.CUDPP_RAND_MD5] →
      ∃ plan : Plan,
        ((cudppPlan mgr planHandle0 config numElements numRows rowPitch).mgr).getPlan
          ((cudppPlan mgr planHandle0 config numElements numRows rowPitch).planHandle) =
          some plan ∧
        plan.base.m_numRows = 1 ∧ plan.base.m_rowPitch = 0) ∧
    (config.algorithm ∈ [CUDPPAlgorithm.CUDPP_SCAN, CUDPPAlgorithm.CUDPP_COMPACT] →
      ∃ plan : Plan,
        ((cudppPlan mgr planHandle0 config numElements numRows rowPitch).mgr).getPlan
          ((cudppPlan mgr planHandle0 config numElements numRows rowPitch).planHandle) =
          some plan ∧
        plan.base.m_numRows = numRows ∧ plan.base.m_rowPitch = rowPitch) := by
  constructor
  · intro hmem
    simp only [List.mem_cons, List.not_mem_nil, or_false] at hmem
    rcases hmem with h1 | h1 | h1 | h1
    · refine ⟨Plan.segmentedScan (mkSegmentedScanPlan config numElements),
        ?_, rfl, rfl⟩
      simp [cudppPlan, hv, h1, CUDPPManager.addPlan, getPlan_cons_self]
    · refine ⟨Plan.radixSort (mkRadixSortPlan config numElements), ?_, rfl, rfl⟩
      simp [cudppPlan, hv, h1, CUDPPManager.addPlan, getPlan_cons_self]
    · refine ⟨Plan.reduce (mkReducePlan config numElements), ?_, rfl, rfl⟩
      simp [cudppPlan, hv, h1, CUDPPManager.addPlan, getPlan_cons_self]
    · refine ⟨Plan.rand (mkRandPlan config numElements), ?_, rfl, rfl⟩
      simp [cudppPlan, hv, h1, CUDPPManager.addPlan, getPlan_cons_self]
  · intro hmem
    simp only [List.mem_cons, List.not_mem_nil, or_false] at hmem
    rcases hmem with h1 | h1
    · refine ⟨Plan.scan (mkScanPlan config numElements numRows rowPitch),
        ?_, rfl, rfl⟩
      simp [cudppPlan, hv, h1, CUDPPManager.addPlan, getPlan_cons_self]
    · refine ⟨Plan.compact (mkCompactPlan config numElements numRows rowPitch),
        ?_, rfl, rfl⟩
      simp [cudppPlan, hv, h1, CUDPPManager.addPlan, getPlan_cons_self]

/-- Witness for C10 at a concrete input: a SegmentedScan request with
caller-supplied numRows = 7 and rowPitch = 5 registers a plan recording
numRows = 1 and rowPitch = 0. -/
theorem cudppPlan_rows_pitch_recording_witness :
    validateOptions ⟨CUDPPAlgorithm.CUDPP_SEGMENTED_SCAN, CUDPPOperator.CUDPP_ADD,
        CUDPPDatatype.CUDPP_FLOAT, 0⟩ 10 7 5 = CUDPPResult.CUDPP_SUCCESS ∧
    (CUDPPConfiguration.algorithm
        ⟨CUDPPAlgorithm.CUDPP_SEGMENTED_SCAN, CUDPPOperator.CUDPP_ADD,
          CUDPPDatatype.CUDPP_FLOAT, 0⟩ ∈ [CUDPPAlgorithm.CUDPP_SEGMENTED_SCAN,
        CUDPPAlgorithm.CUDPP_SORT_RADIX, CUDPPAlgorithm.CUDPP_REDUCE,
        CUDPPAlgorithm.CUDPP_RAND_MD5]) ∧
    (∃ plan : Plan,
      ((cudppPlan CUDPPManager.init 0
          ⟨CUDPPAlgorithm.CUDPP_SEGMENTED_SCAN, CUDPPOperator.CUDPP_ADD,
            CUDPPDatatype.CUDPP_FLOAT, 0⟩ 10 7 5).mgr).getPlan
        ((cudppPlan CUDPPManager.init 0
          ⟨CUDPPAlgorithm.CUDPP_SEGMENTED_SCAN, CUDPPOperator.CUDPP_ADD,
            CUDPPDatatype.CUDPP_FLOAT, 0⟩ 10 7 5).planHandle) = some plan ∧
      plan.base.m_numRows = 1 ∧ plan.base.m_rowPitch = 0) :=
  ⟨by decide, by decide,
    (cudppPlan_rows_pitch_recording CUDPPManager.init 0
      ⟨CUDPPAlgorithm.CUDPP_SEGMENTED_SCAN, CUDPPOperator.CUDPP_ADD,
        CUDPPDatatype.CUDPP_FLOAT, 0⟩ 10 7 5 (by decide)).1 (by decide)⟩
